import Mathlib

/-!
Verification development for the streaming signal/decision engine of
`src/main.py` (a single-instrument tick-driven trading loop).

The pipeline state and the per-tick processing (tick buffers, EMA regime
estimator, feature extraction, decision branches, position lifecycle,
message filtering and reconnect behaviour) are shallowly embedded over
exact rational arithmetic.  The two transcendental library routines the
source calls (`math.exp`, `math.sqrt`, and `math.log` inside a constant)
have no exact rational counterpart; functions that use them take the
routine as an explicit parameter, and the canonical computable stand-ins
`expQ` / `sqrtQ` below are used for concrete evaluations.  Every theorem
that depends on such a routine either holds for all instantiations or
needs only nonnegativity of the square root.
-/

namespace Lighterbot

/-! ## Configuration constants (src/main.py lines 28-82) -/

def PRICE_SCALE : ℚ := 100
def BASE_SCALE : ℚ := 10000
def EMA_FAST_MIN : ℚ := 20
def EMA_SLOW_MIN : ℚ := 50
def MARKET_ID : ℤ := 0
def MARGIN : ℚ := 50
def LEVERAGE : ℚ := 20
def MIN_TP_USD : ℚ := 1/10
def MIN_SL_USD : ℚ := 1/10
def PRINT_INTERVAL : ℚ := 1
def BIAS_EPS_FRAC : ℚ := 1/5000
def TICK_WINDOW : ℕ := 150
def Z_LOOKBACK : ℕ := 24
def SLOPE_LOOKBACK : ℕ := 3
def Z_LO : ℚ := 7/10
def Z_STRONG : ℚ := 2
def Z_EXHAUST : ℚ := 19/5
def TICKRATE_SPIKE_MULT : ℚ := 11/10
def TICKRATE_FADE_MULT : ℚ := 19/20
def HITRUN_LEN : ℕ := 8
def HITRUN_MIN : ℕ := 3
def REGIME_MIN_STRENGTH : ℚ := 1/4000
def REGIME_STRONG_STRENGTH : ℚ := 9/20000
def STREAM_GAP_SEC : ℚ := 1
def SIGMA_WINDOW : ℕ := 50
def TP_SIGMA : ℚ := 11/10
def SL_SIGMA : ℚ := 1

/-- The `1e-9` literal used in `tick_features`, `base_amount_from_notional_usd`. -/
def EPS9 : ℚ := 1/1000000000

/-- Computable stand-in for `math.log (1 - k)` (truncated Maclaurin series);
only used to build the EMA time constants, whose exact value no theorem
below depends on. -/
def ln1mQ (k : ℚ) : ℚ := -(k + k^2/2 + k^3/3 + k^4/4 + k^5/5)

/-- `tau_from_period_minutes` (src/main.py lines 51-53). -/
def tau_from_period_minutes (n : ℚ) : ℚ := -60 / ln1mQ (2 / (n + 1))

def TAU_FAST : ℚ := tau_from_period_minutes EMA_FAST_MIN

def TAU_SLOW : ℚ := tau_from_period_minutes EMA_SLOW_MIN

/-- Computable stand-in for `math.exp` (truncated Maclaurin series); used
for concrete evaluations only, no theorem depends on its precision. -/
def expQ (x : ℚ) : ℚ := 1 + x + x^2/2 + x^3/6 + x^4/24

/-- Computable stand-in for `math.sqrt`: exact on perfect squares of
rationals (all concrete evaluations below stay in that domain) and
nonnegative everywhere, which is the only property general theorems use. -/
def sqrtQ (x : ℚ) : ℚ := (Nat.sqrt x.num.toNat : ℚ) / (Nat.sqrt x.den : ℚ)

/-! ## List utilities -/

/-- Python `l[-n:]` (the trailing `n` elements, all of `l` if shorter). -/
def lastN (n : ℕ) (l : List ℚ) : List ℚ := l.drop (l.length - n)

/-- `collections.deque(maxlen := m).append x`: append and evict from the
front when over capacity. -/
def dequeAppend (m : ℕ) (l : List ℚ) (x : ℚ) : List ℚ := lastN m (l ++ [x])

/-- `sum(l) / len(l)` as used throughout `main.py` (call sites guarantee
nonempty lists; `ℚ` division by zero yields 0). -/
def listMean (l : List ℚ) : ℚ := l.sum / (l.length : ℚ)

/-- `sum((x - m) ** 2 for x in w) / max(1, len(w))` with `m = listMean w`. -/
def listVar (l : List ℚ) : ℚ :=
  (l.map (fun x => (x - listMean l)^2)).sum / (max 1 l.length : ℕ)

/-- Median of an already sorted list, as `statistics.median`: middle
element for odd length, mean of the two middles for even length. -/
def medianSorted (s : List ℚ) : ℚ :=
  let n := s.length
  if n = 0 then 0
  else if n % 2 = 1 then s.getD (n / 2) 0
  else (s.getD (n / 2 - 1) 0 + s.getD (n / 2) 0) / 2

/-- The `median` helper (src/main.py lines 125-126): `statistics.median`
when nonempty, `0.0` otherwise. -/
def median (l : List ℚ) : ℚ := medianSorted (l.mergeSort (fun a b => a ≤ b))

/-! ## Volatility and features (src/main.py lines 129-256) -/

/-- `rolling_sigma` (src/main.py lines 129-141): population standard
deviation over the trailing `lookback` ticks, with a MAD fallback for
short histories and a `0.25` floor below 4 ticks. -/
def rolling_sigma (sqrt : ℚ → ℚ) (prices : List ℚ) (lookback : ℕ) : ℚ :=
  let n := prices.length
  if n < max 8 (lookback / 3) then
    if n < 4 then 1/4
    else
      let m := listMean prices
      let mad := median (prices.map (fun x => |x - m|))
      mad * (14826/10000)
  else
    let window := lastN lookback prices
    sqrt (listVar window)

/-- The z-score denominator's standard-deviation part
(`std = math.sqrt(var) if var > 0 else 0.0`, src/main.py line 221). -/
def zStd (sqrt : ℚ → ℚ) (prices : List ℚ) : ℚ :=
  let v := listVar (lastN Z_LOOKBACK prices)
  if 0 < v then sqrt v else 0

/-- z-score part of `tick_features` (src/main.py lines 216-222). -/
def zScore (sqrt : ℚ → ℚ) (prices : List ℚ) : ℚ :=
  if Z_LOOKBACK ≤ prices.length then
    (prices.getLastD 0 - listMean (lastN Z_LOOKBACK prices)) / (zStd sqrt prices + EPS9)
  else 0

/-- Short-slope part of `tick_features` (src/main.py lines 224-227):
`tick_prices[-1] - tick_prices[-(SLOPE_LOOKBACK + 1)]` when enough ticks. -/
def shortSlope (prices : List ℚ) : ℚ :=
  if SLOPE_LOOKBACK < prices.length then
    prices.getLastD 0 - (lastN (SLOPE_LOOKBACK + 1) prices).headD 0
  else 0

/-- Tick-rate part of `tick_features` (src/main.py lines 229-234), called
`rate_ratio` in the source: ticks in the trailing second over the median
of the trailing ten one-second bucket counts (`or 1.0` floor). -/
def tickRate (times : List ℚ) (now : ℚ) : ℚ :=
  let one_sec : ℚ := (times.countP (fun t => decide (now - t ≤ 1)) : ℕ)
  let sec_counts : List ℚ := (List.range 10).map
    (fun i => ((times.countP (fun t => decide (now - ((i : ℚ) + 1) < t ∧ t ≤ now - (i : ℚ))) : ℕ) : ℚ))
  let m := median sec_counts
  let med_rate := if m = 0 then 1 else m
  one_sec / med_rate

/-- `safe` / `safe_display` part of `tick_features` (src/main.py lines
236-242). -/
def safeTicks (times : List ℚ) : ℕ :=
  let safe := if 2 ≤ times.length then
      let recent := lastN HITRUN_LEN times
      (recent.zip recent.tail).countP (fun p => decide (p.2 - p.1 ≤ STREAM_GAP_SEC))
    else 0
  min HITRUN_LEN safe

/-- `tick_features` (src/main.py lines 211-244): `(z, slope, rate, safe)`. -/
def tick_features (sqrt : ℚ → ℚ) (prices times : List ℚ) (now : ℚ) : ℚ × ℚ × ℚ × ℕ :=
  (zScore sqrt prices, shortSlope prices, tickRate times now, safeTicks times)

/-- `hitrun_counts` (src/main.py lines 247-256): totals of strict
up-moves and strict down-moves over consecutive pairs in the trailing 8
ticks (`(0, 0)` when fewer than 8 ticks are buffered). -/
def hitrun_counts (prices : List ℚ) : ℕ × ℕ :=
  if HITRUN_LEN ≤ prices.length then
    let w := lastN HITRUN_LEN prices
    ((w.zip w.tail).countP (fun p => decide (p.1 < p.2)),
     (w.zip w.tail).countP (fun p => decide (p.2 < p.1)))
  else (0, 0)

/-! ## Decision engine (src/main.py lines 259-360) -/

/-- Carried decision memory: the module globals `_last_slope` and
`_last_rate_ratio` (src/main.py lines 102-103); `lastRate` models
`_last_rate_ratio`. -/
structure DecisionState where
  lastSlope : ℚ
  lastRate : ℚ
deriving DecidableEq, Repr

/-- `exhaustion_guard_for_chase` (src/main.py lines 259-273). -/
def exhaustion_guard_for_chase (side : String) (z slope rate last_slope last_rate : ℚ) : Bool :=
  if Z_EXHAUST ≤ |z| then
    let accel := slope - last_slope
    let burst_fading := decide (rate < max (TICKRATE_FADE_MULT * last_rate) 1)
    if side = "LONG" then (decide (accel < 0) || burst_fading)
    else (decide (0 < accel) || burst_fading)
  else false

/-- `flow_score` (src/main.py lines 276-294); the global `EMA_FAST_SLOPE`
it reads is passed explicitly as `ema_fast_slope`. -/
def flow_score (slope accel rate ema_fast_slope : ℚ) : ℚ :=
  (if 0 < slope then (1 : ℚ) else if slope < 0 then -1 else 0)
  + (if 0 < accel then (7/10 : ℚ) else if accel < 0 then -(7/10) else 0)
  + (if (21/20 : ℚ) < rate then (1/2 : ℚ) else if rate < 19/20 then -(1/2) else 0)
  + (if 0 < ema_fast_slope then (3/5 : ℚ) else if ema_fast_slope < 0 then -(3/5) else 0)

/-- `cond_rate` (src/main.py lines 320-321). -/
def cond_rate (rate : ℚ) (ups downs : ℕ) : Prop :=
  TICKRATE_SPIKE_MULT ≤ rate ∨ (HITRUN_MIN ≤ ups ∨ HITRUN_MIN ≤ downs)

instance (rate : ℚ) (ups downs : ℕ) : Decidable (cond_rate rate ups downs) := by
  unfold cond_rate; infer_instance

/-- Reversal-branch LONG firing condition (src/main.py lines 324-330). -/
def revLongCond (z slope rate ema_fast_slope : ℚ) (ds : DecisionState) : Prop :=
  2 ≤ flow_score slope (slope - ds.lastSlope) rate ema_fast_slope ∧
  max 1 Z_LO ≤ z ∧
  exhaustion_guard_for_chase "LONG" z slope rate ds.lastSlope ds.lastRate = false

instance (z slope rate ema_fast_slope : ℚ) (ds : DecisionState) :
    Decidable (revLongCond z slope rate ema_fast_slope ds) := by
  unfold revLongCond; infer_instance

/-- Reversal-branch SHORT firing condition (src/main.py lines 331-335). -/
def revShortCond (z slope rate ema_fast_slope : ℚ) (ds : DecisionState) : Prop :=
  flow_score slope (slope - ds.lastSlope) rate ema_fast_slope ≤ -2 ∧
  z ≤ -(max 1 Z_LO) ∧
  exhaustion_guard_for_chase "SHORT" z slope rate ds.lastSlope ds.lastRate = false

instance (z slope rate ema_fast_slope : ℚ) (ds : DecisionState) :
    Decidable (revShortCond z slope rate ema_fast_slope ds) := by
  unfold revShortCond; infer_instance

/-- Momentum-branch LONG firing condition (src/main.py lines 339-342). -/
def momLongCond (bias : String) (z slope rate : ℚ) (ups downs : ℕ)
    (ema_fast_slope : ℚ) (ds : DecisionState) : Prop :=
  (bias = "LONG" ∨ 4/5 < flow_score slope (slope - ds.lastSlope) rate ema_fast_slope) ∧
  Z_LO ≤ z ∧ 0 < slope ∧ cond_rate rate ups downs ∧
  exhaustion_guard_for_chase "LONG" z slope rate ds.lastSlope ds.lastRate = false

instance (bias : String) (z slope rate : ℚ) (ups downs : ℕ) (ema_fast_slope : ℚ)
    (ds : DecisionState) :
    Decidable (momLongCond bias z slope rate ups downs ema_fast_slope ds) := by
  unfold momLongCond; infer_instance

/-- Momentum-branch SHORT firing condition (src/main.py lines 343-346). -/
def momShortCond (bias : String) (z slope rate : ℚ) (ups downs : ℕ)
    (ema_fast_slope : ℚ) (ds : DecisionState) : Prop :=
  (bias = "SHORT" ∨ flow_score slope (slope - ds.lastSlope) rate ema_fast_slope < -(4/5)) ∧
  z ≤ -Z_LO ∧ slope < 0 ∧ cond_rate rate ups downs ∧
  exhaustion_guard_for_chase "SHORT" z slope rate ds.lastSlope ds.lastRate = false

instance (bias : String) (z slope rate : ℚ) (ups downs : ℕ) (ema_fast_slope : ℚ)
    (ds : DecisionState) :
    Decidable (momShortCond bias z slope rate ups downs ema_fast_slope ds) := by
  unfold momShortCond; infer_instance

/-- Override-branch LONG firing condition (src/main.py lines 349-353). -/
def ovrLongCond (z slope rate rs : ℚ) (ds : DecisionState) : Prop :=
  REGIME_STRONG_STRENGTH ≤ rs ∧ TICKRATE_SPIKE_MULT ≤ rate ∧
  Z_STRONG ≤ z ∧ 0 < slope ∧ 0 < slope - ds.lastSlope ∧
  exhaustion_guard_for_chase "LONG" z slope rate ds.lastSlope ds.lastRate = false

instance (z slope rate rs : ℚ) (ds : DecisionState) :
    Decidable (ovrLongCond z slope rate rs ds) := by
  unfold ovrLongCond; infer_instance

/-- Override-branch SHORT firing condition (src/main.py lines 349-357). -/
def ovrShortCond (z slope rate rs : ℚ) (ds : DecisionState) : Prop :=
  REGIME_STRONG_STRENGTH ≤ rs ∧ TICKRATE_SPIKE_MULT ≤ rate ∧
  z ≤ -Z_STRONG ∧ slope < 0 ∧ slope - ds.lastSlope < 0 ∧
  exhaustion_guard_for_chase "SHORT" z slope rate ds.lastSlope ds.lastRate = false

instance (z slope rate rs : ℚ) (ds : DecisionState) :
    Decidable (ovrShortCond z slope rate rs ds) := by
  unfold ovrShortCond; infer_instance

/-- Branch logic of `tick_signal` on the already-computed features
(src/main.py lines 311-360).  Every exit of the Python function first
assigns `_last_slope, _last_rate_ratio = slope, rate_ratio`; here each
exit returns the pair `⟨slope, rate⟩` as the new `DecisionState`.  A
branch whose entry test passes but whose exhaustion guard trips falls
through to the next branch, exactly as the nested `if`s do.  The
diagnostic reason strings of the source are dropped (they are
telemetry-only). -/
def tick_signal_core (bias : String) (z slope rate : ℚ) (ups downs : ℕ)
    (rs ema_fast_slope : ℚ) (ds : DecisionState) : String × DecisionState :=
  let ds' : DecisionState := ⟨slope, rate⟩
  if rs < REGIME_MIN_STRENGTH then ("NONE", ds')
  else if revLongCond z slope rate ema_fast_slope ds then ("LONG", ds')
  else if revShortCond z slope rate ema_fast_slope ds then ("SHORT", ds')
  else if momLongCond bias z slope rate ups downs ema_fast_slope ds then ("LONG", ds')
  else if momShortCond bias z slope rate ups downs ema_fast_slope ds then ("SHORT", ds')
  else if ovrLongCond z slope rate rs ds then ("LONG", ds')
  else if ovrShortCond z slope rate rs ds then ("SHORT", ds')
  else ("NONE", ds')

/-- `regime_strength` (src/main.py lines 203-206); the globals
`EMA_FAST_VAL` / `EMA_SLOW_VAL` are passed explicitly. -/
def regime_strength (ema_fast ema_slow : Option ℚ) (price : ℚ) : ℚ :=
  match ema_fast, ema_slow with
  | some f, some s => if price ≤ 0 then 0 else |(f - s) / price|
  | _, _ => 0

/-- `tick_signal` (src/main.py lines 297-360): warm-up gate, feature
computation, then the branch logic.  Note that on the warm-up early
return (fewer than `max(24, Z_LOOKBACK + 2, SLOPE_LOOKBACK + 1) = 26`
buffered ticks) the carried `DecisionState` is returned unchanged. -/
def tick_signal (sqrt : ℚ → ℚ) (bias : String) (prices times : List ℚ) (now : ℚ)
    (ema_fast ema_slow : Option ℚ) (ema_fast_slope : ℚ) (ds : DecisionState) :
    String × DecisionState :=
  if prices.length < max 24 (max (Z_LOOKBACK + 2) (SLOPE_LOOKBACK + 1)) then ("NONE", ds)
  else
    let z := zScore sqrt prices
    let slope := shortSlope prices
    let rate := tickRate times now
    let ud := hitrun_counts prices
    let rs := regime_strength ema_fast ema_slow (prices.getLastD 0)
    tick_signal_core bias z slope rate ud.1 ud.2 rs ema_fast_slope ds

/-- `unrealized_pnl_usd` (src/main.py lines 363-365). -/
def unrealized_pnl_usd (side : String) (entry_mark mark qty_eth : ℚ) : ℚ :=
  (if side = "LONG" then mark - entry_mark else entry_mark - mark) * qty_eth

/-! ## Regime estimator (src/main.py lines 172-200) -/

/-- Regime estimator state: the module globals `EMA_FAST_VAL`,
`EMA_SLOW_VAL`, `EMA_FAST_SLOPE`, `EMA_SLOW_SLOPE`, `LAST_TICK_TS`
(src/main.py lines 91-95). -/
structure RegimeState where
  emaFast : Option ℚ
  emaSlow : Option ℚ
  emaFastSlope : ℚ
  emaSlowSlope : ℚ
  lastTickTs : Option ℚ
deriving DecidableEq, Repr

/-- `update_tick_emas_and_bias` (src/main.py lines 172-200), returning
the updated regime state and the bias string.  The Python invariant that
the EMA values are set whenever `LAST_TICK_TS` is set is reflected by
`Option.getD 0` on a path the source cannot reach with `none`. -/
def update_tick_emas_and_bias (exp : ℚ → ℚ) (price ts : ℚ) (r : RegimeState) :
    RegimeState × String :=
  match r.lastTickTs with
  | none => (⟨some price, some price, 0, 0, some ts⟩, "NEUTRAL")
  | some last =>
    let dt := max (1/1000000) (ts - last)
    let a_fast := 1 - exp (-(dt / TAU_FAST))
    let a_slow := 1 - exp (-(dt / TAU_SLOW))
    let prev_fast := r.emaFast.getD 0
    let prev_slow := r.emaSlow.getD 0
    let ef := (1 - a_fast) * prev_fast + a_fast * price
    let es := (1 - a_slow) * prev_slow + a_slow * price
    let diff := ef - es
    let band := BIAS_EPS_FRAC * price
    let bias := if band < diff then "LONG" else if diff < -band then "SHORT" else "NEUTRAL"
    (⟨some ef, some es, ef - prev_fast, es - prev_slow, some ts⟩, bias)

/-! ## Position lifecycle and per-tick loop body (src/main.py lines 406-512) -/

/-- Position state: the module globals `POSITION_SIDE`, `ENTRY_MARK`,
`ENTRY_QTY_ETH`, `ENTRY_TIME` (src/main.py lines 87-90). -/
structure PositionState where
  side : String
  entryMark : ℚ
  entryQty : ℚ
  entryTime : ℚ
deriving DecidableEq, Repr

/-- All module globals the per-tick loop body reads or writes
(src/main.py lines 85-103). -/
structure GlobalState where
  markPrice : Option ℚ
  bias : String
  regime : RegimeState
  pos : PositionState
  decision : DecisionState
  tradeCount : ℕ
  cumPnl : ℚ
  lastTickPrint : ℚ
deriving DecidableEq, Repr

/-- Globals plus the connection-local tick buffers `tick_prices`
(`deque(maxlen=150)`) and `tick_times` (`deque(maxlen=600)`), created
afresh inside each `websockets.connect` block (src/main.py lines 402-403). -/
structure LoopState where
  g : GlobalState
  tickPrices : List ℚ
  tickTimes : List ℚ
deriving DecidableEq, Repr

/-- Python `round` (banker's rounding: ties go to the even integer). -/
def pyRound (x : ℚ) : ℤ :=
  let f := ⌊x⌋
  let frac := x - f
  if 1/2 < frac then f + 1
  else if frac < 1/2 then f
  else if f % 2 = 0 then f else f + 1

/-- `base_amount_from_notional_usd` (src/main.py lines 116-118). -/
def base_amount_from_notional_usd (notional_usd price : ℚ) : ℤ :=
  let size_eth := max EPS9 (notional_usd / max price EPS9)
  max 1 (pyRound (size_eth * BASE_SCALE))

/-- `qty_eth_from_base_int` (src/main.py lines 121-122). -/
def qty_eth_from_base_int (base_amt_int : ℤ) : ℚ := (base_amt_int : ℚ) / BASE_SCALE

/-- Exit phase of the loop body (src/main.py lines 450-483): while a
position is open, compute the volatility-adaptive thresholds and flatten
when take-profit or stop-loss is hit, incrementing the trade counter and
accumulating realized PnL.  `DRY_RUN = True` in the source configuration,
so the state transition is unconditional (no gateway call). -/
def exit_step (sigma mark : ℚ) (pos : PositionState) (tradeCount : ℕ) (cumPnl : ℚ) :
    PositionState × ℕ × ℚ :=
  if pos.side ≠ "FLAT" then
    let qty := pos.entryQty
    let pnl := unrealized_pnl_usd pos.side pos.entryMark mark qty
    let tp_usd_dyn := max MIN_TP_USD (TP_SIGMA * sigma * qty)
    let sl_usd_dyn := max MIN_SL_USD (SL_SIGMA * sigma * qty)
    if tp_usd_dyn ≤ pnl ∨ pnl ≤ -sl_usd_dyn then
      (⟨"FLAT", 0, 0, 0⟩, tradeCount + 1, cumPnl + pnl)
    else (pos, tradeCount, cumPnl)
  else (pos, tradeCount, cumPnl)

/-- Entry phase of the loop body (src/main.py lines 485-512): while FLAT,
ask `tick_signal` for a side; on a non-NONE proposal record the position
(`DRY_RUN = True`, so the assignment on line 512 always runs; the source
sets `ENTRY_TIME = time.time()`, modelled as the tick's arrival time). -/
def entry_step (sqrt : ℚ → ℚ) (bias : String) (prices times : List ℚ) (now : ℚ)
    (r : RegimeState) (pos : PositionState) (ds : DecisionState) (mark : ℚ) :
    PositionState × DecisionState :=
  if pos.side = "FLAT" then
    let sd := tick_signal sqrt bias prices times now r.emaFast r.emaSlow r.emaFastSlope ds
    if sd.1 ≠ "NONE" then
      let notional := MARGIN * LEVERAGE
      let base_int := base_amount_from_notional_usd notional mark
      let qty_eth := qty_eth_from_base_int base_int
      (⟨sd.1, mark, qty_eth, now⟩, sd.2)
    else (pos, sd.2)
  else (pos, ds)

/-- One iteration of the inner message loop after a relevant tick has
been parsed (src/main.py lines 425-512): append to both buffers, update
the EMAs and bias, compute the rolling volatility, update the printing
timer, then run the exit phase followed by the entry phase.  The features
computed on lines 432-435 feed only the status print and are pure, so
they leave no further trace in the state. -/
def processTick (exp sqrt : ℚ → ℚ) (price now : ℚ) (s : LoopState) : LoopState :=
  let prices := dequeAppend TICK_WINDOW s.tickPrices price
  let times := dequeAppend 600 s.tickTimes now
  let rb := update_tick_emas_and_bias exp price now s.g.regime
  let sigma := rolling_sigma sqrt prices SIGMA_WINDOW
  let lastPrint := if PRINT_INTERVAL ≤ now - s.g.lastTickPrint then now else s.g.lastTickPrint
  let e := exit_step sigma price s.g.pos s.g.tradeCount s.g.cumPnl
  let pd := entry_step sqrt rb.2 prices times now rb.1 e.1 s.g.decision price
  { g := { markPrice := some price, bias := rb.2, regime := rb.1, pos := pd.1,
           decision := pd.2, tradeCount := e.2.1, cumPnl := e.2.2,
           lastTickPrint := lastPrint },
    tickPrices := prices, tickTimes := times }

/-- The `market_stats` payload fields the loop reads (src/main.py lines
418-421). -/
structure MarketStats where
  marketId : ℤ
  markPrice : Option ℚ
deriving DecidableEq, Repr

/-- An inbound websocket message as the loop sees it (src/main.py lines
415-423): a type tag and an optional `market_stats` payload. -/
structure Message where
  mtype : String
  marketStats : Option MarketStats
deriving DecidableEq, Repr

/-- Whether a message passes all three `continue` filters of the loop
(src/main.py lines 416-423): right type tag, matching market id, and a
present (`not None`) mark price.  No condition on the price's sign. -/
def msgAccepted (msg : Message) : Bool :=
  (msg.mtype == "update/market_stats") &&
  (match msg.marketStats with
   | some st => decide (st.marketId = MARKET_ID) && st.markPrice.isSome
   | none => false)

/-- The mark price carried by a message (0 when absent; only meaningful
when `msgAccepted`). -/
def msgPrice (msg : Message) : ℚ :=
  match msg.marketStats with
  | some st => st.markPrice.getD 0
  | none => 0

/-- Handling of one raw inbound message (src/main.py lines 407-512):
the three `continue` filters, then the tick pipeline. -/
def handleMessage (exp sqrt : ℚ → ℚ) (msg : Message) (now : ℚ) (s : LoopState) : LoopState :=
  if msg.mtype ≠ "update/market_stats" then s
  else match msg.marketStats with
  | none => s
  | some st =>
    if st.marketId ≠ MARKET_ID then s
    else match st.markPrice with
    | none => s
    | some mp => processTick exp sqrt mp now s

/-- Effect of a transport failure and reconnect on the pipeline state
(src/main.py lines 514-527 and 375-404): the exception handler sleeps
and re-enters the connection block, which leaves every module global
untouched but creates fresh empty `tick_prices` / `tick_times` deques
(lines 402-403) before the next message is received. -/
def reconnect (s : LoopState) : LoopState :=
  { g := s.g, tickPrices := [], tickTimes := [] }

/-- Initial module globals (src/main.py lines 85-103). -/
def initGlobals : GlobalState :=
  { markPrice := none, bias := "NEUTRAL",
    regime := ⟨none, none, 0, 0, none⟩,
    pos := ⟨"FLAT", 0, 0, 0⟩,
    decision := ⟨0, 1⟩,
    tradeCount := 0, cumPnl := 0, lastTickPrint := 0 }

/-- State at the start of the first connection's message loop. -/
def initState : LoopState := ⟨initGlobals, [], []⟩

/-- One observable step of the message loop: some raw message arrives at
some time and is handled (with the canonical numeric stand-ins). -/
def Step (s s' : LoopState) : Prop :=
  ∃ (msg : Message) (now : ℚ), s' = handleMessage expQ sqrtQ msg now s

/-- States reachable from the initial state by handling messages. -/
def Reachable (s : LoopState) : Prop := Relation.ReflTransGen Step initState s

/-- A well-formed `market_stats` update for market 0 carrying price `p`. -/
def statsMsg (p : ℚ) : Message := ⟨"update/market_stats", some ⟨0, some p⟩⟩

/-- Modelled from the spec: "a run of ≥3 consecutive up-ticks in the
trailing 8" / "count consecutive strict increases" (spec §4.3, §4.4
branch 4) read as the length of the longest streak of consecutive strict
increases; stated for comparison with the source's `hitrun_counts`,
which counts all strict up-moves, consecutive or not. -/
def specMaxUpRun (l : List ℚ) : ℕ :=
  ((l.zip l.tail).foldl
    (fun (acc : ℕ × ℕ) p => if p.1 < p.2 then (acc.1 + 1, max acc.2 (acc.1 + 1)) else (0, acc.2))
    (0, 0)).2

/-! ## Concrete scenario states used by counterexamples and witnesses -/

/-- The state after four valid warm-up ticks (prices 100, 101, 102, 103
at times 1-4) from the initial state. -/
def c3pre : LoopState :=
  handleMessage expQ sqrtQ (statsMsg 103) 4
    (handleMessage expQ sqrtQ (statsMsg 102) 3
      (handleMessage expQ sqrtQ (statsMsg 101) 2
        (handleMessage expQ sqrtQ (statsMsg 100) 1 initState)))

/-- A mid-run state with an open LONG position (entry 100, quantity
10.5263 ETH) and 25 buffered prices falling from 107.5 to 95.5 in steps
of 0.5, one tick per second; the next tick (price 95 at time 25) makes
the stop-loss fire and a SHORT entry signal pass on the same tick. -/
def c4pre : LoopState :=
  { g := { markPrice := some (191/2), bias := "SHORT",
           regime := ⟨some 99, some 101, -1, -1, some 24⟩,
           pos := ⟨"LONG", 100, 105263/10000, 3⟩,
           decision := ⟨-(3/2), 1⟩,
           tradeCount := 7, cumPnl := 3, lastTickPrint := 24 },
    tickPrices := (List.range 25).map (fun i => (215 - (i : ℚ))/2),
    tickTimes := (List.range 25).map (fun i => (i : ℚ)) }

/-- 26 buffered prices whose trailing 24 alternate 99, 101 (ending 101):
plenty of up-moves in total but no two consecutive ones. -/
def c5prices : List ℚ :=
  [100, 100] ++ (List.range 24).map (fun i => if i % 2 = 0 then 99 else 101)

/-- 26 arrival times spaced half a second apart. -/
def c5times : List ℚ := (List.range 26).map (fun j => (j : ℚ)/2)

/-! ## Helper lemmas -/

theorem sqrtQ_nonneg (x : ℚ) : 0 ≤ sqrtQ x := by
  unfold sqrtQ
  exact div_nonneg (Nat.cast_nonneg _) (Nat.cast_nonneg _)

theorem getLastD_replicate (p : ℚ) : ∀ (n : ℕ) (d : ℚ), (List.replicate (n + 1) p).getLastD d = p
  | 0, _ => rfl
  | n + 1, d => by
    rw [List.replicate_succ, List.getLastD_cons]
    exact getLastD_replicate p n p

theorem lastN_replicate (p : ℚ) (n : ℕ) (h : Z_LOOKBACK ≤ n) :
    lastN Z_LOOKBACK (List.replicate n p) = List.replicate Z_LOOKBACK p := by
  unfold lastN
  rw [List.length_replicate, List.drop_replicate]
  congr 1
  omega

theorem listMean_replicate (p : ℚ) : listMean (List.replicate Z_LOOKBACK p) = p := by
  unfold listMean
  rw [List.sum_replicate, List.length_replicate]
  simp [Z_LOOKBACK, nsmul_eq_mul]

/-! ## Claim theorems -/

/-- C10: for every entry price, mark price, and quantity, the unrealized
PnL of a LONG position is the negation of the unrealized PnL of a SHORT
position with the same parameters. -/
theorem C10_thm (e m q : ℚ) :
    unrealized_pnl_usd "LONG" e m q = -unrealized_pnl_usd "SHORT" e m q := by
  unfold unrealized_pnl_usd
  rw [if_pos rfl, if_neg (by decide)]
  ring

/-- C7: whenever the regime strength input is below `0.00025`, the
decision branch logic returns NONE for every combination of bias,
features and carried decision state: the chop filter precedes every
entry branch, including the reversal branch. -/
theorem C7_thm (bias : String) (z slope rate : ℚ) (ups downs : ℕ)
    (rs ema_fast_slope : ℚ) (ds : DecisionState)
    (h : rs < REGIME_MIN_STRENGTH) :
    (tick_signal_core bias z slope rate ups downs rs ema_fast_slope ds).1 = "NONE" := by
  unfold tick_signal_core
  rw [if_pos h]

/-- Witness for C7 at a concrete feature set. -/
theorem C7_witness :
    (tick_signal_core "LONG" 5 1 2 8 0 0 1 ⟨0, 1⟩).1 = "NONE" :=
  C7_thm "LONG" 5 1 2 8 0 0 1 ⟨0, 1⟩ (by norm_num [REGIME_MIN_STRENGTH])

/-- C9: the z-score is exactly 0 whenever fewer than 24 ticks are
buffered, exactly 0 on a buffer of 24 or more identical prices, and its
denominator `std + 1e-9` is strictly positive for every buffer (given a
nonnegative square-root routine), so the computation never divides by
zero. -/
theorem C9_thm (sqrt : ℚ → ℚ) (hsq : ∀ x : ℚ, 0 ≤ sqrt x) :
    (∀ (prices times : List ℚ) (now : ℚ), prices.length < Z_LOOKBACK →
      (tick_features sqrt prices times now).1 = 0) ∧
    (∀ (p : ℚ) (n : ℕ) (times : List ℚ) (now : ℚ), Z_LOOKBACK ≤ n →
      (tick_features sqrt (List.replicate n p) times now).1 = 0) ∧
    (∀ prices : List ℚ, 0 < zStd sqrt prices + EPS9) := by
  refine ⟨?_, ?_, ?_⟩
  · intro prices times now h
    simp only [tick_features, zScore]
    rw [if_neg (not_le.mpr h)]
  · intro p n times now h
    simp only [tick_features, zScore]
    rw [if_pos (by rw [List.length_replicate]; exact h)]
    have h24 : 24 ≤ n := by simpa [Z_LOOKBACK] using h
    obtain ⟨m, rfl⟩ : ∃ m, n = m + 1 := ⟨n - 1, by omega⟩
    rw [lastN_replicate p (m + 1) h, listMean_replicate, getLastD_replicate, sub_self, zero_div]
  · intro prices
    have h1 : 0 ≤ zStd sqrt prices := by
      simp only [zStd]
      split_ifs with h
      · exact hsq _
      · exact le_refl 0
    have h2 : (0 : ℚ) < EPS9 := by norm_num [EPS9]
    linarith

/-- Witness for C9: the three parts at concrete buffers. -/
theorem C9_witness :
    (tick_features sqrtQ [5, 6] [] 0).1 = 0 ∧
    (tick_features sqrtQ (List.replicate 30 3) [] 0).1 = 0 ∧
    0 < zStd sqrtQ [1, 2, 3] + EPS9 :=
  ⟨(C9_thm sqrtQ sqrtQ_nonneg).1 [5, 6] [] 0 (by decide),
   (C9_thm sqrtQ sqrtQ_nonneg).2.1 3 30 [] 0 (by decide),
   (C9_thm sqrtQ sqrtQ_nonneg).2.2 [1, 2, 3]⟩

/-- C1 (amended): a transport failure and reconnect preserves every
module global — the regime estimator state, the position lifecycle
state, the decision memory, the bias, and the counters — but re-creates
the tick buffers empty: the TickWindow contents are NOT preserved. -/
theorem C1_thm (s : LoopState) :
    (reconnect s).g = s.g ∧ (reconnect s).tickPrices = [] ∧ (reconnect s).tickTimes = [] :=
  ⟨rfl, rfl, rfl⟩

/-- Counterexample to C1 as stated: a reachable state (one valid tick
processed) whose tick buffer is nonempty, while after a reconnect the
tick buffer is empty — the TickWindow contents do not survive the
reconnect. -/
theorem C1_counterexample :
    Reachable (handleMessage expQ sqrtQ (statsMsg 100) 1 initState) ∧
    (handleMessage expQ sqrtQ (statsMsg 100) 1 initState).tickPrices = [100] ∧
    (reconnect (handleMessage expQ sqrtQ (statsMsg 100) 1 initState)).tickPrices = [] ∧
    (reconnect (handleMessage expQ sqrtQ (statsMsg 100) 1 initState)).tickPrices ≠
      (handleMessage expQ sqrtQ (statsMsg 100) 1 initState).tickPrices :=
  ⟨Relation.ReflTransGen.single ⟨statsMsg 100, 1, rfl⟩, by decide, rfl, by decide⟩

/-- C2 (amended): a message is dropped with the whole state unchanged
exactly when it fails one of the three loop filters — wrong type tag,
wrong market id, or a missing (`None`) mark price; every message that
passes them has its mark price appended to the tick buffer, with no
condition on the price's sign. -/
theorem C2_thm (exp sqrt : ℚ → ℚ) (msg : Message) (now : ℚ) (s : LoopState) :
    (msgAccepted msg = false → handleMessage exp sqrt msg now s = s) ∧
    (msgAccepted msg = true →
      (handleMessage exp sqrt msg now s).tickPrices =
        dequeAppend TICK_WINDOW s.tickPrices (msgPrice msg)) := by
  rcases msg with ⟨t, (_ | ⟨mid, (_ | mp)⟩)⟩
  · refine ⟨fun _ => ?_, fun h => ?_⟩
    · simp only [handleMessage]
      split_ifs <;> rfl
    · simp [msgAccepted] at h
  · refine ⟨fun _ => ?_, fun h => ?_⟩
    · simp only [handleMessage]
      split_ifs <;> rfl
    · simp [msgAccepted] at h
  · by_cases ht : t = "update/market_stats"
    · by_cases hm : mid = MARKET_ID
      · subst ht hm
        refine ⟨fun h => ?_, fun _ => ?_⟩
        · exfalso
          simp [msgAccepted] at h
        · have e1 : handleMessage exp sqrt
              ⟨"update/market_stats", some ⟨MARKET_ID, some mp⟩⟩ now s =
              processTick exp sqrt mp now s := by
            simp [handleMessage]
          rw [e1]
          simp only [processTick, msgPrice, Option.getD_some]
      · refine ⟨fun _ => ?_, fun h => ?_⟩
        · simp only [handleMessage]
          split_ifs <;> rfl
        · exfalso
          simp [msgAccepted] at h
          exact hm h.2
    · refine ⟨fun _ => ?_, fun h => ?_⟩
      · simp only [handleMessage]
        rw [if_pos ht]
      · exfalso
        simp [msgAccepted] at h
        exact ht h.1

/-- Witness for C2: a message carrying a negative mark price passes the
filters and its price is appended. -/
theorem C2_witness :
    (handleMessage expQ sqrtQ (statsMsg (-5)) 3 initState).tickPrices =
      dequeAppend TICK_WINDOW [] (-5) :=
  (C2_thm expQ sqrtQ (statsMsg (-5)) 3 initState).2 (by decide)

/-- Counterexample to C2 as stated: a message carrying mark price 0
(non-positive) is neither dropped nor rejected — the 0 is appended to
the tick buffer and the regime estimator is invoked on it (its state
changes from uninitialized to initialized at price 0). -/
theorem C2_counterexample :
    (handleMessage expQ sqrtQ (statsMsg 0) 3 initState).tickPrices = [0] ∧
    (handleMessage expQ sqrtQ (statsMsg 0) 3 initState).g.regime.emaFast = some 0 ∧
    (handleMessage expQ sqrtQ (statsMsg 0) 3 initState).g.regime.lastTickTs = some 3 := by
  with_unfolding_all decide

/-- C3 (amended): the decision memory `(_last_slope, _last_rate_ratio)`
is assigned the current tick's `(slope, rate_ratio)` exactly once on
every `tick_signal` call that passes the warm-up gate, regardless of
which branch fires; but a call below the warm-up threshold of 26
buffered ticks returns it unchanged, and a tick processed while a
position stays open never reaches `tick_signal`, leaving the memory
unchanged as well. -/
theorem C3_thm :
    (∀ (bias : String) (z slope rate : ℚ) (ups downs : ℕ) (rs ema_fast_slope : ℚ)
        (ds : DecisionState),
      (tick_signal_core bias z slope rate ups downs rs ema_fast_slope ds).2 =
        ⟨slope, rate⟩) ∧
    (∀ (sqrt : ℚ → ℚ) (bias : String) (prices times : List ℚ) (now : ℚ)
        (ema_fast ema_slow : Option ℚ) (ema_fast_slope : ℚ) (ds : DecisionState),
      prices.length < max 24 (max (Z_LOOKBACK + 2) (SLOPE_LOOKBACK + 1)) →
      (tick_signal sqrt bias prices times now ema_fast ema_slow ema_fast_slope ds).2 = ds) ∧
    (∀ (sqrt : ℚ → ℚ) (bias : String) (prices times : List ℚ) (now : ℚ)
        (r : RegimeState) (pos : PositionState) (ds : DecisionState) (mark : ℚ),
      pos.side ≠ "FLAT" →
      (entry_step sqrt bias prices times now r pos ds mark).2 = ds) := by
  refine ⟨?_, ?_, ?_⟩
  · intro bias z slope rate ups downs rs ema_fast_slope ds
    unfold tick_signal_core
    split_ifs <;> rfl
  · intro sqrt bias prices times now ema_fast ema_slow ema_fast_slope ds h
    unfold tick_signal
    rw [if_pos h]
  · intro sqrt bias prices times now r pos ds mark h
    unfold entry_step
    rw [if_neg h]

/-- Witness for C3 at concrete inputs: a passing core call writes the
new pair, a warm-up call and an open-position tick leave it unchanged. -/
theorem C3_witness :
    (tick_signal_core "NEUTRAL" 1 2 3 0 0 1 0 ⟨9, 9⟩).2 = ⟨2, 3⟩ ∧
    (tick_signal sqrtQ "NEUTRAL" [1, 2] [] 0 none none 0 ⟨4, 5⟩).2 = ⟨4, 5⟩ ∧
    (entry_step sqrtQ "NEUTRAL" [1] [] 0 ⟨none, none, 0, 0, none⟩ ⟨"LONG", 1, 1, 0⟩ ⟨6, 7⟩ 1).2 =
      ⟨6, 7⟩ :=
  ⟨C3_thm.1 "NEUTRAL" 1 2 3 0 0 1 0 ⟨9, 9⟩,
   C3_thm.2.1 sqrtQ "NEUTRAL" [1, 2] [] 0 none none 0 ⟨4, 5⟩ (by decide),
   C3_thm.2.2 sqrtQ "NEUTRAL" [1] [] 0 ⟨none, none, 0, 0, none⟩ ⟨"LONG", 1, 1, 0⟩ ⟨6, 7⟩ 1
     (by decide)⟩

set_option maxRecDepth 40000 in
/-- Counterexample to C3 as stated: the fifth tick of a run (price 104
after 100, 101, 102, 103) is processed while FLAT, its short slope is
3 and its rate ratio is computable, yet the decision memory after the
tick is still the initial `⟨0, 1⟩` — it was not updated on this
processed tick, because `tick_signal` returns before the update while
fewer than 26 ticks are buffered. -/
theorem C3_counterexample :
    Reachable c3pre ∧
    c3pre.g.pos.side = "FLAT" ∧
    (handleMessage expQ sqrtQ (statsMsg 104) 5 c3pre).g.decision = c3pre.g.decision ∧
    c3pre.g.decision = ⟨0, 1⟩ ∧
    shortSlope (handleMessage expQ sqrtQ (statsMsg 104) 5 c3pre).tickPrices = 3 ∧
    (3 : ℚ) ≠ 0 :=
  ⟨Relation.ReflTransGen.tail
    (Relation.ReflTransGen.tail
      (Relation.ReflTransGen.tail
        (Relation.ReflTransGen.single ⟨statsMsg 100, 1, rfl⟩)
        ⟨statsMsg 101, 2, rfl⟩)
      ⟨statsMsg 102, 3, rfl⟩)
    ⟨statsMsg 103, 4, rfl⟩,
   by with_unfolding_all decide, by with_unfolding_all decide,
   by with_unfolding_all decide, by with_unfolding_all decide, by decide⟩

/-- The exit phase either leaves the position, trade count and realized
PnL unchanged, or flattens the position and increments the trade count
by exactly one. -/
theorem exit_step_cases (sigma mark : ℚ) (pos : PositionState) (tc : ℕ) (cum : ℚ) :
    exit_step sigma mark pos tc cum = (pos, tc, cum) ∨
    ((exit_step sigma mark pos tc cum).1 = ⟨"FLAT", 0, 0, 0⟩ ∧
     (exit_step sigma mark pos tc cum).2.1 = tc + 1) := by
  simp only [exit_step]
  split_ifs
  · right
    exact ⟨rfl, rfl⟩
  · left
    rfl
  · left
    rfl

/-- The entry phase does nothing while a position is open. -/
theorem entry_step_skip (sqrt : ℚ → ℚ) (bias : String) (prices times : List ℚ) (now : ℚ)
    (r : RegimeState) (pos : PositionState) (ds : DecisionState) (mark : ℚ)
    (h : pos.side ≠ "FLAT") :
    entry_step sqrt bias prices times now r pos ds mark = (pos, ds) := by
  unfold entry_step
  rw [if_neg h]

/-- C4 (amended): on a single tick starting from an open position, the
position can only change by first passing through the exit phase: any
tick whose processing changes the position of an open-position state
necessarily fired the exit, incrementing the cumulative trade count by
exactly 1 (after which the entry phase runs against the now-FLAT state,
possibly opening a fresh position on the same tick). -/
theorem C4_thm (exp sqrt : ℚ → ℚ) (price now : ℚ) (s : LoopState)
    (hopen : s.g.pos.side ≠ "FLAT")
    (hchange : (processTick exp sqrt price now s).g.pos ≠ s.g.pos) :
    (processTick exp sqrt price now s).g.tradeCount = s.g.tradeCount + 1 := by
  simp only [processTick] at hchange ⊢
  rcases exit_step_cases
      (rolling_sigma sqrt (dequeAppend TICK_WINDOW s.tickPrices price) SIGMA_WINDOW)
      price s.g.pos s.g.tradeCount s.g.cumPnl with h | h
  · exfalso
    rw [h] at hchange
    rw [entry_step_skip _ _ _ _ _ _ _ _ _ hopen] at hchange
    exact hchange rfl
  · exact h.2

set_option maxRecDepth 40000 in
/-- Witness for C4 at the concrete mid-run state `c4pre`. -/
theorem C4_witness :
    (processTick expQ sqrtQ 95 25 c4pre).g.tradeCount = c4pre.g.tradeCount + 1 :=
  C4_thm expQ sqrtQ 95 25 c4pre (by decide) (by with_unfolding_all decide)

set_option maxRecDepth 40000 in
/-- Counterexample to C4 as stated: from the open-LONG state `c4pre`,
the single tick at price 95 both fires the stop-loss exit (trade count
7 to 8) and opens a fresh SHORT position with entry price 95 — an exit
to FLAT and a fresh entry on the same tick, ending LONG-to-SHORT across
one processed tick. -/
theorem C4_counterexample :
    c4pre.g.pos.side = "LONG" ∧
    (processTick expQ sqrtQ 95 25 c4pre).g.pos.side = "SHORT" ∧
    (processTick expQ sqrtQ 95 25 c4pre).g.pos.entryMark = 95 ∧
    (processTick expQ sqrtQ 95 25 c4pre).g.tradeCount = c4pre.g.tradeCount + 1 := by
  with_unfolding_all decide

/-- C6: while a position is open, the exit phase flattens the position
exactly when the unrealized PnL reaches `max(minTP, 1.10·σ·qty)` or
falls to `−max(minSL, 1.00·σ·qty)` with σ the current rolling
volatility; on that exit the position returns to FLAT and the trade
count increases by exactly 1, and otherwise the position, trade count
and realized PnL are untouched. -/
theorem C6_thm (sqrt : ℚ → ℚ) (prices : List ℚ) (sigma mark : ℚ) (pos : PositionState)
    (tc : ℕ) (cum : ℚ)
    (_hsig : sigma = rolling_sigma sqrt prices SIGMA_WINDOW)
    (hopen : pos.side ≠ "FLAT") :
    ((exit_step sigma mark pos tc cum).1.side = "FLAT" ↔
      (max MIN_TP_USD (TP_SIGMA * sigma * pos.entryQty) ≤
          unrealized_pnl_usd pos.side pos.entryMark mark pos.entryQty ∨
        unrealized_pnl_usd pos.side pos.entryMark mark pos.entryQty ≤
          -max MIN_SL_USD (SL_SIGMA * sigma * pos.entryQty))) ∧
    ((max MIN_TP_USD (TP_SIGMA * sigma * pos.entryQty) ≤
          unrealized_pnl_usd pos.side pos.entryMark mark pos.entryQty ∨
        unrealized_pnl_usd pos.side pos.entryMark mark pos.entryQty ≤
          -max MIN_SL_USD (SL_SIGMA * sigma * pos.entryQty)) →
      exit_step sigma mark pos tc cum =
        (⟨"FLAT", 0, 0, 0⟩, tc + 1,
          cum + unrealized_pnl_usd pos.side pos.entryMark mark pos.entryQty)) ∧
    (¬(max MIN_TP_USD (TP_SIGMA * sigma * pos.entryQty) ≤
          unrealized_pnl_usd pos.side pos.entryMark mark pos.entryQty ∨
        unrealized_pnl_usd pos.side pos.entryMark mark pos.entryQty ≤
          -max MIN_SL_USD (SL_SIGMA * sigma * pos.entryQty)) →
      exit_step sigma mark pos tc cum = (pos, tc, cum)) := by
  simp only [exit_step]
  rw [if_pos hopen]
  split_ifs with hhit
  · exact ⟨iff_of_true rfl hhit, fun _ => rfl, fun hn => absurd hhit hn⟩
  · exact ⟨iff_of_false hopen hhit, fun hy => absurd hy hhit, fun _ => rfl⟩

/-- Witness for C6: an open LONG at entry 100 with mark 101 and the
cold-start volatility floor exits with take-profit, trade count 0 to 1. -/
theorem C6_witness :
    exit_step (rolling_sigma sqrtQ [100, 101] SIGMA_WINDOW) 101 ⟨"LONG", 100, 1, 0⟩ 0 0 =
      (⟨"FLAT", 0, 0, 0⟩, 0 + 1, 0 + unrealized_pnl_usd "LONG" 100 101 1) :=
  (C6_thm sqrtQ [100, 101] (rolling_sigma sqrtQ [100, 101] SIGMA_WINDOW) 101
      ⟨"LONG", 100, 1, 0⟩ 0 0 rfl (by decide)).2.1 (by with_unfolding_all decide)

/-- C8: with z = 4.0 (so |z| ≥ 3.8), a negative short slope and a
positive carried last slope (deceleration), the decision output is NONE
for every bias, rate, run counts, regime strength and EMA slope — no
LONG is proposed; and symmetrically, whenever |z| ≥ 3.8 and the
acceleration is positive or the burst is fading, no branch can output
SHORT. -/
theorem C8_thm :
    (∀ (bias : String) (slope rate : ℚ) (ups downs : ℕ) (rs ema_fast_slope : ℚ)
        (ds : DecisionState), slope < 0 → 0 < ds.lastSlope →
      (tick_signal_core bias 4 slope rate ups downs rs ema_fast_slope ds).1 = "NONE") ∧
    (∀ (bias : String) (z slope rate : ℚ) (ups downs : ℕ) (rs ema_fast_slope : ℚ)
        (ds : DecisionState), Z_EXHAUST ≤ |z| →
      (0 < slope - ds.lastSlope ∨ rate < max (TICKRATE_FADE_MULT * ds.lastRate) 1) →
      (tick_signal_core bias z slope rate ups downs rs ema_fast_slope ds).1 ≠ "SHORT") := by
  constructor
  · intro bias slope rate ups downs rs ema_fast_slope ds hs hl
    have hg : exhaustion_guard_for_chase "LONG" 4 slope rate ds.lastSlope ds.lastRate = true := by
      unfold exhaustion_guard_for_chase
      rw [if_pos (by rw [abs_of_nonneg (by norm_num)]; norm_num [Z_EXHAUST])]
      rw [if_pos rfl]
      simp only [Bool.or_eq_true, decide_eq_true_eq]
      left
      linarith
    unfold tick_signal_core
    split_ifs with h1 h2 h3 h4 h5 h6 h7
    · rfl
    · rw [h2.2.2] at hg
      exact absurd hg (by decide)
    · exact absurd h3.2.1 (by norm_num [Z_LO])
    · rw [h4.2.2.2.2] at hg
      exact absurd hg (by decide)
    · exact absurd h5.2.1 (by norm_num [Z_LO])
    · rw [h6.2.2.2.2.2] at hg
      exact absurd hg (by decide)
    · exact absurd h7.2.2.1 (by norm_num [Z_STRONG])
    · rfl
  · intro bias z slope rate ups downs rs ema_fast_slope ds hz hacc
    have hg : exhaustion_guard_for_chase "SHORT" z slope rate ds.lastSlope ds.lastRate = true := by
      unfold exhaustion_guard_for_chase
      rw [if_pos hz]
      rw [if_neg (by decide)]
      simp only [Bool.or_eq_true, decide_eq_true_eq]
      rcases hacc with h | h
      · left
        exact h
      · right
        exact h
    unfold tick_signal_core
    split_ifs with h1 h2 h3 h4 h5 h6 h7
    · exact (by decide : ("NONE" : String) ≠ "SHORT")
    · exact (by decide : ("LONG" : String) ≠ "SHORT")
    · rw [h3.2.2] at hg
      exact absurd hg (by decide)
    · exact (by decide : ("LONG" : String) ≠ "SHORT")
    · rw [h5.2.2.2.2] at hg
      exact absurd hg (by decide)
    · exact (by decide : ("LONG" : String) ≠ "SHORT")
    · rw [h7.2.2.2.2.2] at hg
      exact absurd hg (by decide)
    · exact (by decide : ("NONE" : String) ≠ "SHORT")

/-- Witness for C8: a decelerating z = 4 spike yields NONE despite LONG
bias, and an accelerating z = −4 spike cannot yield SHORT. -/
theorem C8_witness :
    (tick_signal_core "LONG" 4 (-1) 1 0 0 1 0 ⟨1, 1⟩).1 = "NONE" ∧
    (tick_signal_core "SHORT" (-4) (-1) 1 0 0 1 0 ⟨-2, 1⟩).1 ≠ "SHORT" :=
  ⟨C8_thm.1 "LONG" (-1) 1 0 0 1 0 ⟨1, 1⟩ (by norm_num) (by norm_num),
   C8_thm.2 "SHORT" (-4) (-1) 1 0 0 1 0 ⟨-2, 1⟩
     (by rw [abs_of_nonpos (by norm_num)]; norm_num [Z_EXHAUST])
     (Or.inl (by norm_num))⟩

/-- C5 (amended): the decision core outputs LONG exactly when the chop
filter passes and either the reversal-LONG branch fires, or the two
reversal branches fail and the momentum-LONG branch fires, or all four
earlier branches fail and the override-LONG branch fires — where the
momentum branch's rate condition `cond_rate` is `rate ≥ 1.10` or at
least 3 strict up-moves or at least 3 strict down-moves in total over
consecutive pairs of the trailing 8 ticks (shared by both sides, not a
direction-specific consecutive run). -/
theorem C5_thm (bias : String) (z slope rate : ℚ) (ups downs : ℕ)
    (rs ema_fast_slope : ℚ) (ds : DecisionState) :
    (tick_signal_core bias z slope rate ups downs rs ema_fast_slope ds).1 = "LONG" ↔
      (¬rs < REGIME_MIN_STRENGTH ∧
        (revLongCond z slope rate ema_fast_slope ds ∨
         (¬revLongCond z slope rate ema_fast_slope ds ∧
          ¬revShortCond z slope rate ema_fast_slope ds ∧
          momLongCond bias z slope rate ups downs ema_fast_slope ds) ∨
         (¬revLongCond z slope rate ema_fast_slope ds ∧
          ¬revShortCond z slope rate ema_fast_slope ds ∧
          ¬momLongCond bias z slope rate ups downs ema_fast_slope ds ∧
          ¬momShortCond bias z slope rate ups downs ema_fast_slope ds ∧
          ovrLongCond z slope rate rs ds))) := by
  unfold tick_signal_core
  split_ifs with h1 h2 h3 h4 h5 h6 h7 <;> simp_all

set_option maxRecDepth 40000 in
/-- Counterexample to C5 as stated: on the buffer `c5prices` (trailing
8 ticks alternating 99, 101 with no two consecutive up-ticks) with rate
ratio 1/2 < 1.10, the momentum branch still proposes LONG — the flow
score 1/2 < 2 rules out the reversal branch and the rate ratio rules
out the override branch — because the code's rate condition accepts 3
strict up-moves (or down-moves) in total, not a consecutive run. -/
theorem C5_counterexample :
    (tick_signal sqrtQ "LONG" c5prices c5times (131/10) (some 101) (some 100) 0 ⟨2, 1⟩).1 =
      "LONG" ∧
    tickRate c5times (131/10) < TICKRATE_SPIKE_MULT ∧
    specMaxUpRun (lastN HITRUN_LEN c5prices) < HITRUN_MIN ∧
    flow_score (shortSlope c5prices) 0 (tickRate c5times (131/10)) 0 < 2 := by
  with_unfolding_all decide

end Lighterbot
